import Mathlib

/-!
# GenerateGLLMetaData: the driver `main`

A shallow embedding of `src/src/GenerateGLLMetaData.cpp`.  The driver is a single
`try` block with two handlers.  It calls collaborators whose code is not part of the
source tree at hand (the command-line macros, `Mesh`, `GenerateMetaData`, the NetCDF
writer, `Announce`); each of them is a field of `World`, so every theorem below holds
for every behaviour of those collaborators.

A run is modelled by the list of observable events it produces, in program order, and
by the value `main` returns.  A collaborator either returns or throws; a throw is
either an `Exception` (caught by the first handler) or any other value (caught by
`catch(...)`).  A collaborator that ends the process without returning to `main` is
outside this model.

The two variables `fBubble_uniform` and `fBubble_interior` are declared without an
initialiser and never assigned before they are passed on; what they hold is not
determined by the program, so it is part of `World` as well.

Doubles are `Float`; the theorems use no property of its arithmetic.
-/

namespace GenerateGLLMetaData

/-! ## Data -/

/-- The `Exception` class thrown by `_EXCEPTION1` (`Exception.h` is not in the source
tree): recorded by the format string and the arguments it is built from. -/
structure Exception where
  format : String
  args : List String
  deriving DecidableEq, Repr

/-- What a C++ `throw` carries, as far as the two handlers of `main` can tell. -/
inductive Thrown where
  | exception (e : Exception)
  | other
  deriving DecidableEq, Repr

/-- `_EXCEPTION1(fmt, arg)`: build the exception that is thrown. -/
def _EXCEPTION1 (fmt : String) (arg : String) : Exception :=
  ⟨fmt, [arg]⟩

/-- Modelled from the spec: `GridElements.h` is not in the source tree.  A face is an
ordered sequence of 3-D vertex positions (spec, section 3). -/
structure Face where
  vertices : List (Float × Float × Float)

/-- Modelled from the spec: `GridElements.h` is not in the source tree.  A mesh is an
ordered sequence of faces, read-only once loaded (spec, sections 2 and 3). -/
structure Mesh where
  faces : List Face

/-- Modelled from the spec: `DataMatrix3D.h` is not in the source tree.  A dense 3-D
array, indexed `[i][j][face]`. -/
abbrev DataMatrix3D (α : Type) := List (List (List α))

/-- The three results of `GenerateMetaData`: its return value and its two output
arguments. -/
structure MetaData where
  dAccumulatedJacobian : Float
  dataGLLnodes : DataMatrix3D Int
  dataGLLJacobian : DataMatrix3D Float

/-- The flags a command line supplies, as the `CommandLine.h` parser reads them:
each flag is absent or carries a value. -/
structure GivenArgs where
  mesh : Option String
  np : Option Int
  out : Option String
  deriving DecidableEq, Repr

/-- The NetCDF variable types used by the driver. -/
inductive NcType where
  | ncInt
  | ncDouble
  deriving DecidableEq, Repr

/-- The NetCDF file modes used by the driver. -/
inductive FileMode where
  | Replace
  deriving DecidableEq, Repr

/-- The calls the driver makes on the NetCDF writer (lines 96-108).  Dimensions and
variables are referred to by name. -/
inductive NcOp where
  | NcFile (path : String) (mode : FileMode)
  | add_dim (name : String) (size : Int)
  | add_var (name : String) (type : NcType) (dims : List String)
  | put_int (var : String) (data : DataMatrix3D Int) (extents : List Int)
  | put_double (var : String) (data : DataMatrix3D Float) (extents : List Int)

/-- Observable events of a run, in program order. -/
inductive Event where
  | AnnounceBanner
  | AnnounceStartBlock (text : String)
  | AnnounceEndBlock (text : Option String)
  | Announce (format : String) (args : List Float)
  | AnnounceException (e : Exception)
  | LoadMesh (path : String)
  | CalculateFaceAreas (mesh : Mesh)
  | GenerateMetaData (mesh : Mesh) (nP : Int) (fBubble_uniform fBubble_interior : Bool)
  | nc (op : NcOp)

/-- Everything a run of `main` depends on besides `argv`. -/
structure World where
  /-- The `BeginCommandLine .. EndCommandLine` block: reads `argv`. -/
  ParseCommandLine : List String → Except Thrown GivenArgs
  /-- The value found in the automatic variable `fBubble_uniform` (line 40), which
  `main` declares and never assigns. -/
  fBubble_uniform : Bool
  /-- The value found in the automatic variable `fBubble_interior` (line 41), which
  `main` declares and never assigns. -/
  fBubble_interior : Bool
  /-- The constructor `Mesh meshInput(strMesh)`. -/
  loadMesh : String → Except Thrown Mesh
  /-- The method `Mesh::CalculateFaceAreas`. -/
  CalculateFaceAreas : Mesh → Except Thrown Float
  /-- The function `GenerateMetaData`. -/
  GenerateMetaData : Mesh → Int → Bool → Bool → Except Thrown MetaData
  /-- The NetCDF writer: whether a call throws. -/
  nc : NcOp → Option Thrown

/-- The result of a run: the events produced and the value `main` returns. -/
structure Run where
  trace : List Event
  exit : Int

/-! ## The driver -/

/-- Modelled from the spec: `CommandLine.h` is not in the source tree.
`CommandLineString(ref, name, value)` registers the flag `--name` with default
`value`; after parsing, `ref` holds the value given on the command line, or `value`
when the flag is absent. -/
def CommandLineString (given : Option String) (value : String) : String :=
  given.getD value

/-- Modelled from the spec: `CommandLine.h` is not in the source tree.
`CommandLineInt(ref, name, value)` registers the flag `--name` with default `value`;
after parsing, `ref` holds the value given on the command line, or `value` when the
flag is absent. -/
def CommandLineInt (given : Option Int) (value : Int) : Int :=
  given.getD value

/-- The constant `M_PI` of `math.h`. -/
def M_PI : Float := 3.14159265358979323846

/-- The conversion `static_cast<int>` of a `size_t` value to a 32-bit `int` (line 93):
the value modulo 2^32, read as two's complement. -/
def static_cast_int (n : Nat) : Int :=
  if n % 2 ^ 32 < 2 ^ 31 then ((n % 2 ^ 32 : Nat) : Int)
  else ((n % 2 ^ 32 : Nat) : Int) - 2 ^ 32

/-- Run the NetCDF calls in order, up to and including the first one that throws.
Returns the calls made and what was thrown, if anything. -/
def perform (nc : NcOp → Option Thrown) : List NcOp → List NcOp × Option Thrown
  | [] => ([], none)
  | op :: rest =>
    match nc op with
    | some x => ([op], some x)
    | none => (op :: (perform nc rest).1, (perform nc rest).2)

/-- The NetCDF calls of lines 96-108, in program order. -/
def writeCalls (strOutput : String) (nP nElements : Int) (md : MetaData) : List NcOp :=
  [ .NcFile strOutput .Replace,
    .add_dim "nelem" nElements,
    .add_dim "np" nP,
    .add_var "GLLnodes" .ncInt ["np", "np", "nelem"],
    .add_var "J" .ncDouble ["np", "np", "nelem"],
    .put_int "GLLnodes" md.dataGLLnodes [nP, nP, nElements],
    .put_double "J" md.dataGLLJacobian [nP, nP, nElements] ]

/-- The body of the `try` block (lines 31-113): the events produced, and either the
value returned or what was thrown. -/
def tryBlock (w : World) (argv : List String) : List Event × Except Thrown Int :=
  -- lines 46-53
  match w.ParseCommandLine argv with
  | .error x => ([], .error x)
  | .ok given =>
    let strMesh := CommandLineString given.mesh ""
    let nP := CommandLineInt given.np 4
    let strOutput := CommandLineString given.out "gllmeta.nc"
    -- line 55
    let t1 : List Event := [.AnnounceBanner]
    -- lines 58-60
    if strMesh = "" then
      (t1, .error (.exception (_EXCEPTION1 "Invalid input mesh file \"%s\"" strMesh)))
    else
      -- lines 63-65
      let t2 := t1 ++ [.AnnounceStartBlock "Loading Mesh", .LoadMesh strMesh]
      match w.loadMesh strMesh with
      | .error x => (t2, .error x)
      | .ok meshInput =>
        -- lines 68-71
        let t3 := t2 ++ [.AnnounceEndBlock none,
          .AnnounceStartBlock "Calculating input mesh Face areas",
          .CalculateFaceAreas meshInput]
        match w.CalculateFaceAreas meshInput with
        | .error x => (t3, .error x)
        | .ok dTotalAreaInput =>
          -- lines 70-86
          let t4 := t3 ++ [.Announce "Input Mesh Geometric Area: %1.15e" [dTotalAreaInput],
            .AnnounceEndBlock none,
            .AnnounceStartBlock "Calculating Metadata",
            .GenerateMetaData meshInput nP w.fBubble_uniform w.fBubble_interior]
          match w.GenerateMetaData meshInput nP w.fBubble_uniform w.fBubble_interior with
          | .error x => (t4, .error x)
          | .ok md =>
            -- lines 88-93
            let t5 := t4 ++ [.Announce "Accumulated J: %1.15e (Error %1.15e)\n"
                [md.dAccumulatedJacobian, md.dAccumulatedJacobian - 4.0 * M_PI],
              .AnnounceEndBlock none]
            let nElements := static_cast_int meshInput.faces.length
            -- lines 96-108
            let written := perform w.nc (writeCalls strOutput nP nElements md)
            match written.2 with
            | some x => (t5 ++ written.1.map Event.nc, .error x)
            | none =>
              -- lines 111-113
              (t5 ++ written.1.map Event.nc ++ [.AnnounceBanner], .ok 0)

/-- The function `main` (lines 29-122): the `try` block and its two handlers. -/
def main (w : World) (argv : List String) : Run :=
  match tryBlock w argv with
  | (t, .ok code) => ⟨t, code⟩
  | (t, .error (.exception e)) => ⟨t ++ [.AnnounceException e], -1⟩
  | (t, .error .other) => ⟨t, -2⟩

/-! ## The claimed behaviour, stated without the events -/

/-- The NetCDF calls as a single fallible step: the first throw, if any. -/
def writeAll (nc : NcOp → Option Thrown) : List NcOp → Except Thrown Unit
  | [] => .ok ()
  | op :: rest =>
    match nc op with
    | some x => .error x
    | none => writeAll nc rest

/-- The steps of a run up to and including `GenerateMetaData`, as a chain of fallible
steps: command-line parsing, mesh-path check, mesh loading, face-area calculation,
`GenerateMetaData`.  Returns what the later steps use. -/
def metadata (w : World) (argv : List String) :
    Except Thrown (GivenArgs × Mesh × MetaData) := do
  let given ← w.ParseCommandLine argv
  if CommandLineString given.mesh "" = "" then
    throw (.exception (_EXCEPTION1 "Invalid input mesh file \"%s\""
      (CommandLineString given.mesh "")))
  let meshInput ← w.loadMesh (CommandLineString given.mesh "")
  let _ ← w.CalculateFaceAreas meshInput
  let md ← w.GenerateMetaData meshInput (CommandLineInt given.np 4)
    w.fBubble_uniform w.fBubble_interior
  return (given, meshInput, md)

/-- All steps of a run as a chain of fallible steps: those of `metadata`, then the
output writing. -/
def steps (w : World) (argv : List String) : Except Thrown Unit := do
  let r ← metadata w argv
  writeAll w.nc (writeCalls (CommandLineString r.1.out "gllmeta.nc")
    (CommandLineInt r.1.np 4) (static_cast_int r.2.1.faces.length) r.2.2)

/-- The exit code the claim assigns to the outcome of the steps. -/
def exitCodeOf : Except Thrown Unit → Int
  | .ok _ => 0
  | .error (.exception _) => -1
  | .error .other => -2

/-- The NetCDF calls among the events of a run, in order. -/
def ncCalls : List Event → List NcOp
  | [] => []
  | .nc op :: rest => op :: ncCalls rest
  | _ :: rest => ncCalls rest

/-- Modelled from the spec: the error kind `InvalidInput` of section 7, raised by the
generator for `nP < 2`. -/
def InvalidInput : Exception := ⟨"InvalidInput", []⟩

/-- Modelled from the spec: the error kind `ConfigurationError` of section 7, raised
when the interior bubble is requested with `nP < 3`. -/
def ConfigurationError : Exception := ⟨"ConfigurationError", []⟩

/-- Modelled from the spec: `GenerateMetaData` is declared in `FiniteElementTools.h`
and its code is not in the source tree.  Section 4.5, step 1: generating the 1-D
quadrature rule fails if `nP < 2`; section 4.4: the interior bubble with `nP < 3` is a
configuration error.  The numerical work that follows is the parameter `payload`. -/
def GenerateMetaData (payload : Mesh → Int → Bool → Bool → Except Thrown MetaData)
    (mesh : Mesh) (nP : Int) (fBubble_uniform fBubble_interior : Bool) :
    Except Thrown MetaData :=
  if nP < 2 then .error (.exception InvalidInput)
  else if fBubble_interior = true ∧ nP < 3 then .error (.exception ConfigurationError)
  else payload mesh nP fBubble_uniform fBubble_interior

/-- The world `w` with the generator of the spec in front of its own. -/
def withSpecGenerator (w : World) : World :=
  { w with GenerateMetaData := GenerateMetaData w.GenerateMetaData }

/-! ## The events along each path through `main` -/

/-- The events up to the call of the `Mesh` constructor. -/
def traceLoad (strMesh : String) : List Event :=
  [.AnnounceBanner, .AnnounceStartBlock "Loading Mesh", .LoadMesh strMesh]

/-- The events up to the call of `CalculateFaceAreas`. -/
def traceAreas (strMesh : String) (m : Mesh) : List Event :=
  traceLoad strMesh ++ [.AnnounceEndBlock none,
    .AnnounceStartBlock "Calculating input mesh Face areas", .CalculateFaceAreas m]

/-- The events up to the call of `GenerateMetaData`. -/
def traceGenerate (strMesh : String) (m : Mesh) (a : Float) (nP : Int) (u i : Bool) :
    List Event :=
  traceAreas strMesh m ++ [.Announce "Input Mesh Geometric Area: %1.15e" [a],
    .AnnounceEndBlock none, .AnnounceStartBlock "Calculating Metadata",
    .GenerateMetaData m nP u i]

/-- The events up to the first NetCDF call. -/
def traceReport (strMesh : String) (m : Mesh) (a : Float) (nP : Int) (u i : Bool)
    (md : MetaData) : List Event :=
  traceGenerate strMesh m a nP u i ++ [.Announce "Accumulated J: %1.15e (Error %1.15e)\n"
    [md.dAccumulatedJacobian, md.dAccumulatedJacobian - 4.0 * M_PI], .AnnounceEndBlock none]

/-- The path a run takes through the `try` block, with the events and outcome of each. -/
inductive Path (w : World) (argv : List String) : List Event → Except Thrown Int → Prop
  | parse (x : Thrown) (hparse : w.ParseCommandLine argv = .error x) :
      Path w argv [] (.error x)
  | check (g : GivenArgs) (hparse : w.ParseCommandLine argv = .ok g)
      (hmesh : CommandLineString g.mesh "" = "") :
      Path w argv [.AnnounceBanner]
        (.error (.exception (_EXCEPTION1 "Invalid input mesh file \"%s\"" "")))
  | load (g : GivenArgs) (x : Thrown) (hparse : w.ParseCommandLine argv = .ok g)
      (hmesh : CommandLineString g.mesh "" ≠ "")
      (hload : w.loadMesh (CommandLineString g.mesh "") = .error x) :
      Path w argv (traceLoad (CommandLineString g.mesh "")) (.error x)
  | areas (g : GivenArgs) (m : Mesh) (x : Thrown)
      (hparse : w.ParseCommandLine argv = .ok g)
      (hmesh : CommandLineString g.mesh "" ≠ "")
      (hload : w.loadMesh (CommandLineString g.mesh "") = .ok m)
      (hareas : w.CalculateFaceAreas m = .error x) :
      Path w argv (traceAreas (CommandLineString g.mesh "") m) (.error x)
  | generate (g : GivenArgs) (m : Mesh) (a : Float) (x : Thrown)
      (hparse : w.ParseCommandLine argv = .ok g)
      (hmesh : CommandLineString g.mesh "" ≠ "")
      (hload : w.loadMesh (CommandLineString g.mesh "") = .ok m)
      (hareas : w.CalculateFaceAreas m = .ok a)
      (hgen : w.GenerateMetaData m (CommandLineInt g.np 4) w.fBubble_uniform
        w.fBubble_interior = .error x) :
      Path w argv (traceGenerate (CommandLineString g.mesh "") m a (CommandLineInt g.np 4)
        w.fBubble_uniform w.fBubble_interior) (.error x)
  | write (g : GivenArgs) (m : Mesh) (a : Float) (md : MetaData) (x : Thrown)
      (hparse : w.ParseCommandLine argv = .ok g)
      (hmesh : CommandLineString g.mesh "" ≠ "")
      (hload : w.loadMesh (CommandLineString g.mesh "") = .ok m)
      (hareas : w.CalculateFaceAreas m = .ok a)
      (hgen : w.GenerateMetaData m (CommandLineInt g.np 4) w.fBubble_uniform
        w.fBubble_interior = .ok md)
      (hwrite : (perform w.nc (writeCalls (CommandLineString g.out "gllmeta.nc")
        (CommandLineInt g.np 4) (static_cast_int m.faces.length) md)).2 = some x) :
      Path w argv (traceReport (CommandLineString g.mesh "") m a (CommandLineInt g.np 4)
        w.fBubble_uniform w.fBubble_interior md ++
        (perform w.nc (writeCalls (CommandLineString g.out "gllmeta.nc")
          (CommandLineInt g.np 4) (static_cast_int m.faces.length) md)).1.map Event.nc)
        (.error x)
  | done (g : GivenArgs) (m : Mesh) (a : Float) (md : MetaData)
      (hparse : w.ParseCommandLine argv = .ok g)
      (hmesh : CommandLineString g.mesh "" ≠ "")
      (hload : w.loadMesh (CommandLineString g.mesh "") = .ok m)
      (hareas : w.CalculateFaceAreas m = .ok a)
      (hgen : w.GenerateMetaData m (CommandLineInt g.np 4) w.fBubble_uniform
        w.fBubble_interior = .ok md)
      (hwrite : (perform w.nc (writeCalls (CommandLineString g.out "gllmeta.nc")
        (CommandLineInt g.np 4) (static_cast_int m.faces.length) md)).2 = none) :
      Path w argv (traceReport (CommandLineString g.mesh "") m a (CommandLineInt g.np 4)
        w.fBubble_uniform w.fBubble_interior md ++
        (writeCalls (CommandLineString g.out "gllmeta.nc")
          (CommandLineInt g.np 4) (static_cast_int m.faces.length) md).map Event.nc ++
        [.AnnounceBanner]) (.ok 0)

/-- The two handlers of `main`, applied to the outcome of the `try` block. -/
def handlers (t : List Event) : Except Thrown Int → Run
  | .ok code => ⟨t, code⟩
  | .error (.exception e) => ⟨t ++ [.AnnounceException e], -1⟩
  | .error .other => ⟨t, -2⟩

/-- The outcome of the `try` block without the value returned. -/
def outcomeOf : Except Thrown Int → Except Thrown Unit
  | .ok _ => .ok ()
  | .error x => .error x

/-! ## Sample worlds -/

/-- A mesh with two faces. -/
def sampleMesh : Mesh := ⟨[⟨[]⟩, ⟨[]⟩]⟩

/-- A generator result. -/
def sampleMetaData : MetaData := ⟨12.5, [[[0, 1]]], [[[1.0, 2.0]]]⟩

/-- A world in which every collaborator succeeds; the command line gives
`--mesh m.g` only, and both bubble variables happen to hold `false`. -/
def sampleWorld : World where
  ParseCommandLine := fun _ => .ok ⟨some "m.g", none, none⟩
  fBubble_uniform := false
  fBubble_interior := false
  loadMesh := fun _ => .ok sampleMesh
  CalculateFaceAreas := fun _ => .ok 12.0
  GenerateMetaData := fun _ _ _ _ => .ok sampleMetaData
  nc := fun _ => none

/-- The world of `sampleWorld` with a command line that gives no `--mesh`. -/
def noMeshWorld : World :=
  { sampleWorld with ParseCommandLine := fun _ => .ok ⟨none, some 4, some "o.nc"⟩ }

/-- A mesh with 2^31 faces. -/
def hugeMesh : Mesh := ⟨List.replicate 2147483648 ⟨[]⟩⟩

/-- The world of `sampleWorld` with a mesh file of 2^31 faces. -/
def hugeWorld : World :=
  { sampleWorld with loadMesh := fun _ => .ok hugeMesh }

/-- The world of `sampleWorld` with a command line that gives all three flags. -/
def explicitWorld : World :=
  { sampleWorld with ParseCommandLine := fun _ => .ok ⟨some "m.g", some 6, some "o.nc"⟩ }

/-- The world of `sampleWorld` with a command line that gives `--np 1`. -/
def lowOrderWorld : World :=
  { sampleWorld with ParseCommandLine := fun _ => .ok ⟨some "m.g", some 1, none⟩ }

/-- A world for the command line `--mesh m.g --np 2`, with the generator of the spec,
in which the variable `fBubble_interior` happens to hold `flag`. -/
def orderTwoWorld (flag : Bool) : World :=
  { sampleWorld with
    ParseCommandLine := fun _ => .ok ⟨some "m.g", some 2, none⟩
    fBubble_interior := flag
    GenerateMetaData := GenerateMetaData (fun _ _ _ _ => .ok sampleMetaData) }

/-- The world of `sampleWorld` in which loading the mesh throws a value that is not an
`Exception`. -/
def silentWorld : World :=
  { sampleWorld with loadMesh := fun _ => .error .other }

/-- The world of `sampleWorld` in which loading the mesh throws an `Exception`. -/
def unreadableWorld : World :=
  { sampleWorld with loadMesh := fun _ => .error (.exception ⟨"Unable to open \"%s\"", ["m.g"]⟩) }

/-- The world of `sampleWorld` in which both bubble variables happen to hold `true`. -/
def bubbleWorld : World :=
  { sampleWorld with fBubble_uniform := true, fBubble_interior := true }

/-! ## The paths through `main` -/

theorem perform_snd_none {nc : NcOp → Option Thrown} :
    ∀ {ops : List NcOp}, (perform nc ops).2 = none → (perform nc ops).1 = ops
  | [], _ => rfl
  | op :: rest, h => by
    unfold perform at h ⊢
    cases hop : nc op with
    | some x => simp [hop] at h
    | none =>
      simp only [hop] at h ⊢
      rw [perform_snd_none h]

theorem perform_snd_eq_writeAll (nc : NcOp → Option Thrown) :
    ∀ ops : List NcOp, (perform nc ops).2 =
      (match writeAll nc ops with | .ok _ => none | .error x => some x)
  | [] => rfl
  | op :: rest => by
    unfold perform writeAll
    cases hop : nc op with
    | some x => simp
    | none => simpa using perform_snd_eq_writeAll nc rest

theorem perform_fst_sublist (nc : NcOp → Option Thrown) :
    ∀ ops : List NcOp, ∃ rest, ops = (perform nc ops).1 ++ rest
  | [] => ⟨[], rfl⟩
  | op :: rest => by
    unfold perform
    cases hop : nc op with
    | some x => exact ⟨rest, rfl⟩
    | none =>
      obtain ⟨r, hr⟩ := perform_fst_sublist nc rest
      exact ⟨r, by simp only [List.cons_append]; rw [← hr]⟩

theorem ncCalls_append (t u : List Event) : ncCalls (t ++ u) = ncCalls t ++ ncCalls u := by
  induction t with
  | nil => rfl
  | cons e t ih => cases e <;> simp [ncCalls, ih]

theorem ncCalls_map_nc (ops : List NcOp) : ncCalls (ops.map Event.nc) = ops := by
  induction ops with
  | nil => rfl
  | cons op ops ih => simp [ncCalls, ih]

theorem mem_ncCalls {op : NcOp} : ∀ {t : List Event}, Event.nc op ∈ t ↔ op ∈ ncCalls t
  | [] => by simp [ncCalls]
  | e :: t => by
    cases e <;> simp [ncCalls, mem_ncCalls (t := t)]

/-- Every run of the `try` block takes one of the paths. -/
theorem tryBlock_path (w : World) (argv : List String) :
    Path w argv (tryBlock w argv).1 (tryBlock w argv).2 := by
  unfold tryBlock
  cases hparse : w.ParseCommandLine argv with
  | error x => exact .parse x hparse
  | ok g =>
    by_cases hmesh : CommandLineString g.mesh "" = ""
    · simp only [hmesh, if_true]
      exact .check g hparse hmesh
    · simp only [hmesh, if_false]
      cases hload : w.loadMesh (CommandLineString g.mesh "") with
      | error x => exact .load g x hparse hmesh hload
      | ok m =>
        dsimp only
        cases hareas : w.CalculateFaceAreas m with
        | error x => exact .areas g m x hparse hmesh hload hareas
        | ok a =>
          dsimp only
          cases hgen : w.GenerateMetaData m (CommandLineInt g.np 4) w.fBubble_uniform
              w.fBubble_interior with
          | error x => exact .generate g m a x hparse hmesh hload hareas hgen
          | ok md =>
            dsimp only
            cases hwrite : (perform w.nc (writeCalls (CommandLineString g.out "gllmeta.nc")
                (CommandLineInt g.np 4) (static_cast_int m.faces.length) md)).2 with
            | some x => exact .write g m a md x hparse hmesh hload hareas hgen hwrite
            | none =>
              dsimp only
              have h := Path.done g m a md hparse hmesh hload hareas hgen hwrite
              rw [← perform_snd_none hwrite] at h
              exact h

theorem main_path (w : World) (argv : List String) :
    ∃ t r, Path w argv t r ∧ main w argv = handlers t r := by
  refine ⟨(tryBlock w argv).1, (tryBlock w argv).2, tryBlock_path w argv, ?_⟩
  unfold main
  rcases h : tryBlock w argv with ⟨t, r⟩
  rcases r with (_ | e) | code <;> rfl

theorem perform_snd_none_iff (nc : NcOp → Option Thrown) :
    ∀ ops : List NcOp, (perform nc ops).2 = none ↔ ∀ op ∈ ops, nc op = none
  | [] => by simp [perform]
  | op :: rest => by
    unfold perform
    cases hop : nc op with
    | some x => simp [hop]
    | none => simp [hop, perform_snd_none_iff nc rest]

theorem path_ok_zero {w : World} {argv : List String} {t : List Event} {c : Int}
    (hp : Path w argv t (.ok c)) : c = 0 := by
  cases hp; rfl

theorem steps_of_path {w : World} {argv : List String} {t : List Event}
    {r : Except Thrown Int} (hp : Path w argv t r) :
    steps w argv = outcomeOf r := by
  unfold outcomeOf
  cases hp with
  | parse x hparse => simp [steps, metadata, hparse, bind, Except.bind]
  | check g hparse hmesh =>
    simp [steps, metadata, hparse, hmesh, bind, Except.bind, throw, throwThe,
      MonadExceptOf.throw]
  | load g x hparse hmesh hload =>
    simp [steps, metadata, hparse, hmesh, hload, bind, Except.bind, pure, Except.pure]
  | areas g m x hparse hmesh hload hareas =>
    simp [steps, metadata, hparse, hmesh, hload, hareas, bind, Except.bind, pure,
      Except.pure]
  | generate g m a x hparse hmesh hload hareas hgen =>
    simp [steps, metadata, hparse, hmesh, hload, hareas, hgen, bind, Except.bind, pure,
      Except.pure]
  | write g m a md x hparse hmesh hload hareas hgen hwrite =>
    rw [perform_snd_eq_writeAll] at hwrite
    simp only [steps, metadata, hparse, hmesh, hload, hareas, hgen, bind, Except.bind,
      pure, Except.pure, if_false]
    split at hwrite
    · simp at hwrite
    · next y hy => simp at hwrite; rw [hy, hwrite]
  | done g m a md hparse hmesh hload hareas hgen hwrite =>
    rw [perform_snd_eq_writeAll] at hwrite
    simp only [steps, metadata, hparse, hmesh, hload, hareas, hgen, bind, Except.bind,
      pure, Except.pure, if_false]
    split at hwrite
    · next y hy => rw [hy]
    · simp at hwrite

theorem ncCalls_handlers (t : List Event) (r : Except Thrown Int) :
    ncCalls (handlers t r).trace = ncCalls t := by
  rcases r with (e | _) | c <;> simp [handlers, ncCalls_append, ncCalls]

theorem ncCalls_traceGenerate (s : String) (m : Mesh) (a : Float) (n : Int) (u i : Bool) :
    ncCalls (traceGenerate s m a n u i) = [] := rfl

theorem ncCalls_traceReport (s : String) (m : Mesh) (a : Float) (n : Int) (u i : Bool)
    (md : MetaData) : ncCalls (traceReport s m a n u i md) = [] := rfl

theorem metadata_of_generated {w : World} {argv : List String} {g : GivenArgs} {m : Mesh}
    {a : Float} {md : MetaData}
    (hparse : w.ParseCommandLine argv = .ok g)
    (hmesh : CommandLineString g.mesh "" ≠ "")
    (hload : w.loadMesh (CommandLineString g.mesh "") = .ok m)
    (hareas : w.CalculateFaceAreas m = .ok a)
    (hgen : w.GenerateMetaData m (CommandLineInt g.np 4) w.fBubble_uniform
      w.fBubble_interior = .ok md) :
    metadata w argv = .ok (g, m, md) := by
  simp [metadata, hparse, hmesh, hload, hareas, hgen, bind, Except.bind, pure, Except.pure]

theorem handlers_error_exit (t : List Event) (x : Thrown) :
    (handlers t (.error x)).exit ≠ 0 := by
  cases x <;> simp [handlers]

/-- A run that returns 0 went through every step, and its events are those of the
full path. -/
theorem main_exit_zero {w : World} {argv : List String} (hexit : (main w argv).exit = 0) :
    ∃ g m a md, w.ParseCommandLine argv = .ok g ∧
      CommandLineString g.mesh "" ≠ "" ∧
      w.loadMesh (CommandLineString g.mesh "") = .ok m ∧
      w.CalculateFaceAreas m = .ok a ∧
      w.GenerateMetaData m (CommandLineInt g.np 4) w.fBubble_uniform
        w.fBubble_interior = .ok md ∧
      (main w argv).trace = traceReport (CommandLineString g.mesh "") m a
        (CommandLineInt g.np 4) w.fBubble_uniform w.fBubble_interior md ++
        (writeCalls (CommandLineString g.out "gllmeta.nc") (CommandLineInt g.np 4)
          (static_cast_int m.faces.length) md).map Event.nc ++ [.AnnounceBanner] := by
  obtain ⟨t, r, hp, hm⟩ := main_path w argv
  rw [hm] at hexit
  cases hp with
  | parse x hparse => exact absurd hexit (handlers_error_exit _ _)
  | check g hparse hmesh => exact absurd hexit (handlers_error_exit _ _)
  | load g x hparse hmesh hload => exact absurd hexit (handlers_error_exit _ _)
  | areas g m x hparse hmesh hload hareas => exact absurd hexit (handlers_error_exit _ _)
  | generate g m a x hparse hmesh hload hareas hgen =>
    exact absurd hexit (handlers_error_exit _ _)
  | write g m a md x hparse hmesh hload hareas hgen hwrite =>
    exact absurd hexit (handlers_error_exit _ _)
  | done g m a md hparse hmesh hload hareas hgen hwrite =>
    exact ⟨g, m, a, md, hparse, hmesh, hload, hareas, hgen, by rw [hm]; rfl⟩

/-- A run in which every step returns. -/
theorem main_of_all_ok (w : World) (argv : List String) (g : GivenArgs) (m : Mesh)
    (a : Float) (md : MetaData)
    (hparse : w.ParseCommandLine argv = .ok g)
    (hmesh : CommandLineString g.mesh "" ≠ "")
    (hload : w.loadMesh (CommandLineString g.mesh "") = .ok m)
    (hareas : w.CalculateFaceAreas m = .ok a)
    (hgen : w.GenerateMetaData m (CommandLineInt g.np 4) w.fBubble_uniform
      w.fBubble_interior = .ok md)
    (hwrite : ∀ op, w.nc op = none) :
    main w argv = ⟨traceReport (CommandLineString g.mesh "") m a
        (CommandLineInt g.np 4) w.fBubble_uniform w.fBubble_interior md ++
        (writeCalls (CommandLineString g.out "gllmeta.nc") (CommandLineInt g.np 4)
          (static_cast_int m.faces.length) md).map Event.nc ++ [.AnnounceBanner], 0⟩ := by
  have hw : ∀ ops, perform w.nc ops = (ops, none) := by
    intro ops
    induction ops with
    | nil => rfl
    | cons op rest ih => simp [perform, hwrite op, ih]
  simp [main, tryBlock, hparse, hmesh, hload, hareas, hgen, hw, traceReport, traceGenerate,
    traceAreas, traceLoad]

theorem static_cast_int_of_lt {n : Nat} (h : n < 2 ^ 31) : static_cast_int n = n := by
  have h32 : n % 2 ^ 32 = n := Nat.mod_eq_of_lt (by omega)
  unfold static_cast_int
  rw [h32, if_pos h]

theorem mem_handlers_generate {t : List Event} {r : Except Thrown Int} {m : Mesh} {n : Int}
    {u i : Bool} :
    Event.GenerateMetaData m n u i ∈ (handlers t r).trace ↔
      Event.GenerateMetaData m n u i ∈ t := by
  rcases r with (e | _) | c <;> simp [handlers]

/-- Every call of `GenerateMetaData` in a run is made on the loaded mesh, with the
parsed order and the two bubble variables; every NetCDF call is one of `writeCalls`. -/
theorem main_events {w : World} {argv : List String} {g : GivenArgs}
    (hparse : w.ParseCommandLine argv = .ok g) :
    (∀ m n u i, Event.GenerateMetaData m n u i ∈ (main w argv).trace →
      n = CommandLineInt g.np 4 ∧ u = w.fBubble_uniform ∧ i = w.fBubble_interior ∧
      w.loadMesh (CommandLineString g.mesh "") = .ok m) ∧
    (∀ op, Event.nc op ∈ (main w argv).trace →
      ∃ (m : Mesh) (md : MetaData), op ∈ writeCalls (CommandLineString g.out "gllmeta.nc")
        (CommandLineInt g.np 4) (static_cast_int m.faces.length) md) := by
  obtain ⟨t, r, hp, hm⟩ := main_path w argv
  have hnc : ncCalls (main w argv).trace = ncCalls t := by rw [hm, ncCalls_handlers]
  have hempty : ncCalls t = [] → ∀ op, Event.nc op ∈ (main w argv).trace →
      ∃ (m : Mesh) (md : MetaData), op ∈ writeCalls (CommandLineString g.out "gllmeta.nc")
        (CommandLineInt g.np 4) (static_cast_int m.faces.length) md := by
    intro h op hop
    rw [mem_ncCalls, hnc, h] at hop
    cases hop
  have hsame : ∀ {g' : GivenArgs}, w.ParseCommandLine argv = .ok g' → g' = g := by
    intro g' h
    rw [hparse] at h
    cases h
    rfl
  rw [hm]
  simp only [mem_handlers_generate]
  rw [← hm]
  cases hp with
  | parse x hparse' => rw [hparse] at hparse'; cases hparse'
  | check g' hparse' hmesh => exact ⟨by simp, hempty rfl⟩
  | load g' x hparse' hmesh hload => exact ⟨by simp [traceLoad], hempty rfl⟩
  | areas g' m x hparse' hmesh hload hareas =>
    exact ⟨by simp [traceAreas, traceLoad], hempty rfl⟩
  | generate g' m a x hparse' hmesh hload hareas hgen =>
    cases hsame hparse'
    refine ⟨?_, hempty rfl⟩
    intro m' n u i h
    simp [traceGenerate, traceAreas, traceLoad] at h
    obtain ⟨rfl, rfl, rfl, rfl⟩ := h
    exact ⟨rfl, rfl, rfl, hload⟩
  | write g' m a md x hparse' hmesh hload hareas hgen hwrite =>
    cases hsame hparse'
    constructor
    · intro m' n u i h
      simp [traceReport, traceGenerate, traceAreas, traceLoad] at h
      obtain ⟨rfl, rfl, rfl, rfl⟩ := h
      exact ⟨rfl, rfl, rfl, hload⟩
    · intro op hop
      rw [mem_ncCalls, hnc, ncCalls_append, ncCalls_traceReport, ncCalls_map_nc] at hop
      obtain ⟨rest, hrest⟩ := perform_fst_sublist w.nc
        (writeCalls (CommandLineString g.out "gllmeta.nc") (CommandLineInt g.np 4)
          (static_cast_int m.faces.length) md)
      refine ⟨m, md, ?_⟩
      rw [hrest]
      exact List.mem_append_left _ hop
  | done g' m a md hparse' hmesh hload hareas hgen hwrite =>
    cases hsame hparse'
    constructor
    · intro m' n u i h
      simp [traceReport, traceGenerate, traceAreas, traceLoad] at h
      obtain ⟨rfl, rfl, rfl, rfl⟩ := h
      exact ⟨rfl, rfl, rfl, hload⟩
    · intro op hop
      rw [mem_ncCalls, hnc, ncCalls_append, ncCalls_append, ncCalls_traceReport,
        ncCalls_map_nc] at hop
      refine ⟨m, md, ?_⟩
      simpa [ncCalls] using hop

/-- A run in which `GenerateMetaData` returns: its events are those up to the report
of the accumulated total, then NetCDF calls, then possibly the closing banner. -/
theorem main_of_generated {w : World} {argv : List String} {g : GivenArgs} {m : Mesh}
    {a : Float} {md : MetaData}
    (hparse : w.ParseCommandLine argv = .ok g)
    (hmesh : CommandLineString g.mesh "" ≠ "")
    (hload : w.loadMesh (CommandLineString g.mesh "") = .ok m)
    (hareas : w.CalculateFaceAreas m = .ok a)
    (hgen : w.GenerateMetaData m (CommandLineInt g.np 4) w.fBubble_uniform
      w.fBubble_interior = .ok md) :
    ∃ (ops : List NcOp) (tail : List Event) (r : Except Thrown Int), main w argv = handlers (traceReport (CommandLineString g.mesh "") m a
        (CommandLineInt g.np 4) w.fBubble_uniform w.fBubble_interior md ++
        ops.map Event.nc ++ tail) r ∧ (tail = [] ∨ tail = [.AnnounceBanner]) := by
  obtain ⟨t, r, hp, hm⟩ := main_path w argv
  cases hp with
  | parse x hparse' => rw [hparse] at hparse'; cases hparse'
  | check g' hparse' hmesh' =>
    rw [hparse] at hparse'; cases hparse'; exact absurd hmesh' hmesh
  | load g' x hparse' hmesh' hload' =>
    rw [hparse] at hparse'; cases hparse'
    rw [hload] at hload'; cases hload'
  | areas g' m' x hparse' hmesh' hload' hareas' =>
    rw [hparse] at hparse'; cases hparse'
    rw [hload] at hload'; cases hload'
    rw [hareas] at hareas'; cases hareas'
  | generate g' m' a' x hparse' hmesh' hload' hareas' hgen' =>
    rw [hparse] at hparse'; cases hparse'
    rw [hload] at hload'; cases hload'
    rw [hgen] at hgen'; cases hgen'
  | write g' m' a' md' x hparse' hmesh' hload' hareas' hgen' hwrite =>
    rw [hparse] at hparse'; cases hparse'
    rw [hload] at hload'; cases hload'
    rw [hareas] at hareas'; cases hareas'
    rw [hgen] at hgen'; cases hgen'
    exact ⟨_, [], _, by rw [hm, List.append_nil], Or.inl rfl⟩
  | done g' m' a' md' hparse' hmesh' hload' hareas' hgen' hwrite =>
    rw [hparse] at hparse'; cases hparse'
    rw [hload] at hload'; cases hload'
    rw [hareas] at hareas'; cases hareas'
    rw [hgen] at hgen'; cases hgen'
    exact ⟨_, [.AnnounceBanner], _, hm, Or.inr rfl⟩

/-- In a run in which `GenerateMetaData` returns `md`, the accumulated total is reported
once, with the returned total and that total minus `4.0 * M_PI`. -/
theorem report_of_generated {w : World} {argv : List String} {g : GivenArgs} {m : Mesh}
    {a : Float} {md : MetaData}
    (hparse : w.ParseCommandLine argv = .ok g)
    (hmesh : CommandLineString g.mesh "" ≠ "")
    (hload : w.loadMesh (CommandLineString g.mesh "") = .ok m)
    (hareas : w.CalculateFaceAreas m = .ok a)
    (hgen : w.GenerateMetaData m (CommandLineInt g.np 4) w.fBubble_uniform
      w.fBubble_interior = .ok md) :
    Event.Announce "Accumulated J: %1.15e (Error %1.15e)\n"
      [md.dAccumulatedJacobian, md.dAccumulatedJacobian - 4.0 * M_PI] ∈ (main w argv).trace ∧
    (∀ args, Event.Announce "Accumulated J: %1.15e (Error %1.15e)\n" args ∈
      (main w argv).trace →
      args = [md.dAccumulatedJacobian, md.dAccumulatedJacobian - 4.0 * M_PI]) := by
  obtain ⟨ops, tail, r, hm, htail⟩ := main_of_generated hparse hmesh hload hareas hgen
  rw [hm]
  rcases htail with rfl | rfl <;> rcases r with (e | _) | c <;>
    simp [handlers, traceReport, traceGenerate, traceAreas, traceLoad]

/-! ## The claims -/

/-- C1. When the command line leaves `--mesh` out or gives it the empty string, `main`
returns -1 from the `Exception` handler, and the run consists of the banner and the
announcement of the exception only: the mesh is not loaded, `GenerateMetaData` is not
called and no NetCDF call is made. -/
theorem main_rejects_missing_mesh (w : World) (argv : List String) (g : GivenArgs)
    (hparse : w.ParseCommandLine argv = .ok g)
    (hmesh : g.mesh = none ∨ g.mesh = some "") :
    (main w argv).exit = -1 ∧
    (main w argv).trace = [.AnnounceBanner,
      .AnnounceException (_EXCEPTION1 "Invalid input mesh file \"%s\"" "")] ∧
    (∀ p, Event.LoadMesh p ∉ (main w argv).trace) ∧
    (∀ m n u i, Event.GenerateMetaData m n u i ∉ (main w argv).trace) ∧
    (∀ op, Event.nc op ∉ (main w argv).trace) := by
  have hstr : CommandLineString g.mesh "" = "" := by
    rcases hmesh with h | h <;> simp [h, CommandLineString]
  have hmain : main w argv = ⟨[.AnnounceBanner,
      .AnnounceException (_EXCEPTION1 "Invalid input mesh file \"%s\"" "")], -1⟩ := by
    simp [main, tryBlock, hparse, hstr]
  simp [hmain]

theorem main_rejects_missing_mesh_witness :
    (main noMeshWorld ["--np", "4", "--out", "o.nc"]).exit = -1 ∧
    (main noMeshWorld ["--np", "4", "--out", "o.nc"]).trace = [.AnnounceBanner,
      .AnnounceException (_EXCEPTION1 "Invalid input mesh file \"%s\"" "")] ∧
    (∀ p, Event.LoadMesh p ∉ (main noMeshWorld ["--np", "4", "--out", "o.nc"]).trace) ∧
    (∀ m n u i, Event.GenerateMetaData m n u i ∉
      (main noMeshWorld ["--np", "4", "--out", "o.nc"]).trace) ∧
    (∀ op, Event.nc op ∉ (main noMeshWorld ["--np", "4", "--out", "o.nc"]).trace) :=
  main_rejects_missing_mesh noMeshWorld ["--np", "4", "--out", "o.nc"]
    ⟨none, some 4, some "o.nc"⟩ rfl (Or.inl rfl)

/-- C2. The value `main` returns is 0 when no step throws, -1 when the first throw is
an `Exception` and -2 when it is anything else; and it is 0 exactly when command-line
parsing, the mesh-path check, mesh loading, the face-area calculation,
`GenerateMetaData` and every NetCDF call return. -/
theorem main_exit_code (w : World) (argv : List String) :
    (main w argv).exit = exitCodeOf (steps w argv) ∧
    ((main w argv).exit = 0 ↔ steps w argv = .ok ()) ∧
    ((main w argv).exit = 0 ↔
      ∃ g m a md, w.ParseCommandLine argv = .ok g ∧
        CommandLineString g.mesh "" ≠ "" ∧
        w.loadMesh (CommandLineString g.mesh "") = .ok m ∧
        w.CalculateFaceAreas m = .ok a ∧
        w.GenerateMetaData m (CommandLineInt g.np 4) w.fBubble_uniform
          w.fBubble_interior = .ok md ∧
        ∀ op ∈ writeCalls (CommandLineString g.out "gllmeta.nc") (CommandLineInt g.np 4)
          (static_cast_int m.faces.length) md, w.nc op = none) := by
  obtain ⟨t, r, hp, hm⟩ := main_path w argv
  have hs := steps_of_path hp
  have h1 : (main w argv).exit = exitCodeOf (steps w argv) := by
    rw [hm, hs]
    rcases r with (e | _) | c
    · rfl
    · rfl
    · rw [path_ok_zero hp]; rfl
  refine ⟨h1, ?_, ?_⟩
  · rw [h1]
    rcases steps w argv with (e | _) | u <;> simp [exitCodeOf]
  · rw [hm]
    cases hp with
    | parse x hparse => cases x <;> simp [handlers, hparse]
    | check g hparse hmesh =>
      simp only [handlers, hparse]
      constructor
      · intro h; simp at h
      · rintro ⟨g', m, a, md, hg, hne, -⟩
        cases hg
        exact absurd hmesh hne
    | load g x hparse hmesh hload =>
      have hx : (handlers (traceLoad (CommandLineString g.mesh "")) (.error x)).exit ≠ 0 := by
        cases x <;> simp [handlers]
      simp only [hx, false_iff, hparse]
      rintro ⟨g', m, a, md, hg, -, hl, -⟩
      cases hg
      rw [hload] at hl
      cases hl
    | areas g m x hparse hmesh hload hareas =>
      have hx : (handlers (traceAreas (CommandLineString g.mesh "") m) (.error x)).exit ≠ 0 := by
        cases x <;> simp [handlers]
      simp only [hx, false_iff, hparse]
      rintro ⟨g', m', a, md, hg, -, hl, ha, -⟩
      cases hg
      rw [hload] at hl
      cases hl
      rw [hareas] at ha
      cases ha
    | generate g m a x hparse hmesh hload hareas hgen =>
      have hx : (handlers (traceGenerate (CommandLineString g.mesh "") m a
          (CommandLineInt g.np 4) w.fBubble_uniform w.fBubble_interior) (.error x)).exit ≠ 0 := by
        cases x <;> simp [handlers]
      simp only [hx, false_iff, hparse]
      rintro ⟨g', m', a', md, hg, -, hl, -, hgn, -⟩
      cases hg
      rw [hload] at hl
      cases hl
      rw [hgen] at hgn
      cases hgn
    | write g m a md x hparse hmesh hload hareas hgen hwrite =>
      have hx : ∀ t, (handlers t (.error x)).exit ≠ 0 := by
        intro t; cases x <;> simp [handlers]
      simp only [hx, false_iff, hparse]
      rintro ⟨g', m', a', md', hg, -, hl, -, hgn, hw⟩
      cases hg
      rw [hload] at hl
      cases hl
      rw [hgen] at hgn
      cases hgn
      rw [← perform_snd_none_iff, hwrite] at hw
      cases hw
    | done g m a md hparse hmesh hload hareas hgen hwrite =>
      simp only [handlers, true_iff]
      exact ⟨g, m, a, md, hparse, hmesh, hload, hareas, hgen,
        (perform_snd_none_iff _ _).1 hwrite⟩

/-- C3. When command-line parsing, the mesh-path check, mesh loading, the face-area
calculation or `GenerateMetaData` throws, the run makes no NetCDF call at all: the
output file is not opened and no variable is written.  Every NetCDF call of a run
comes after a call of `GenerateMetaData` that returned, and no NetCDF call comes
before it. -/
theorem no_partial_output (w : World) (argv : List String) :
    (∀ x, metadata w argv = .error x → ∀ op, Event.nc op ∉ (main w argv).trace) ∧
    (∀ op, Event.nc op ∈ (main w argv).trace →
      ∃ g m md pre post, metadata w argv = .ok (g, m, md) ∧
        w.GenerateMetaData m (CommandLineInt g.np 4) w.fBubble_uniform
          w.fBubble_interior = .ok md ∧
        (main w argv).trace = pre ++ Event.GenerateMetaData m (CommandLineInt g.np 4)
          w.fBubble_uniform w.fBubble_interior :: post ∧
        (∀ op', Event.nc op' ∉ pre) ∧ Event.nc op ∈ post) := by
  obtain ⟨t, r, hp, hm⟩ := main_path w argv
  have hnc : ncCalls (main w argv).trace = ncCalls t := by rw [hm, ncCalls_handlers]
  have hempty : ncCalls t = [] →
      (∀ x, metadata w argv = .error x → ∀ op, Event.nc op ∉ (main w argv).trace) ∧
      (∀ op, Event.nc op ∈ (main w argv).trace →
        ∃ g m md pre post, metadata w argv = .ok (g, m, md) ∧
          w.GenerateMetaData m (CommandLineInt g.np 4) w.fBubble_uniform
            w.fBubble_interior = .ok md ∧
          (main w argv).trace = pre ++ Event.GenerateMetaData m (CommandLineInt g.np 4)
            w.fBubble_uniform w.fBubble_interior :: post ∧
          (∀ op', Event.nc op' ∉ pre) ∧ Event.nc op ∈ post) := by
    intro h
    have hno : ∀ op, Event.nc op ∉ (main w argv).trace := by
      intro op
      rw [mem_ncCalls, hnc, h]
      simp
    exact ⟨fun _ _ => hno, fun op hop => absurd hop (hno op)⟩
  have hreached : ∀ (g : GivenArgs) (m : Mesh) (a : Float) (md : MetaData) (tail : List Event)
      (r' : Except Thrown Int),
      metadata w argv = .ok (g, m, md) →
      w.GenerateMetaData m (CommandLineInt g.np 4) w.fBubble_uniform
        w.fBubble_interior = .ok md →
      main w argv = handlers (traceReport (CommandLineString g.mesh "") m a
        (CommandLineInt g.np 4) w.fBubble_uniform w.fBubble_interior md ++ tail) r' →
      (∀ x, metadata w argv = .error x → ∀ op, Event.nc op ∉ (main w argv).trace) ∧
      (∀ op, Event.nc op ∈ (main w argv).trace →
        ∃ g m md pre post, metadata w argv = .ok (g, m, md) ∧
          w.GenerateMetaData m (CommandLineInt g.np 4) w.fBubble_uniform
            w.fBubble_interior = .ok md ∧
          (main w argv).trace = pre ++ Event.GenerateMetaData m (CommandLineInt g.np 4)
            w.fBubble_uniform w.fBubble_interior :: post ∧
          (∀ op', Event.nc op' ∉ pre) ∧ Event.nc op ∈ post) := by
    intro g m a md tail r' hmeta hgen hmain
    refine ⟨fun x hx => (by rw [hmeta] at hx; cases hx), fun op hop => ?_⟩
    obtain ⟨post, hpost⟩ : ∃ post, (main w argv).trace =
        (traceAreas (CommandLineString g.mesh "") m ++
          [.Announce "Input Mesh Geometric Area: %1.15e" [a], .AnnounceEndBlock none,
            .AnnounceStartBlock "Calculating Metadata"]) ++
        Event.GenerateMetaData m (CommandLineInt g.np 4) w.fBubble_uniform
          w.fBubble_interior :: post := by
      rw [hmain]
      rcases r' with (e | _) | c <;>
        simp [handlers, traceReport, traceGenerate, List.append_assoc]
    refine ⟨g, m, md, _, post, hmeta, hgen, hpost, ?_, ?_⟩
    · intro op'
      simp [traceAreas, traceLoad]
    · rw [hpost] at hop
      simpa [traceAreas, traceLoad] using hop
  cases hp with
  | parse x hparse => exact hempty rfl
  | check g hparse hmesh => exact hempty rfl
  | load g x hparse hmesh hload => exact hempty rfl
  | areas g m x hparse hmesh hload hareas => exact hempty rfl
  | generate g m a x hparse hmesh hload hareas hgen => exact hempty rfl
  | write g m a md x hparse hmesh hload hareas hgen hwrite =>
    exact hreached g m a md _ _ (metadata_of_generated hparse hmesh hload hareas hgen) hgen hm
  | done g m a md hparse hmesh hload hareas hgen hwrite =>
    rw [List.append_assoc] at hm
    exact hreached g m a md _ _ (metadata_of_generated hparse hmesh hload hareas hgen) hgen hm

theorem no_partial_output_witness :
    (∀ op, Event.nc op ∉ (main unreadableWorld ["--mesh", "m.g"]).trace) ∧
    (∃ g m md pre post, metadata sampleWorld ["--mesh", "m.g"] = .ok (g, m, md) ∧
      sampleWorld.GenerateMetaData m (CommandLineInt g.np 4) sampleWorld.fBubble_uniform
        sampleWorld.fBubble_interior = .ok md ∧
      (main sampleWorld ["--mesh", "m.g"]).trace =
        pre ++ Event.GenerateMetaData m (CommandLineInt g.np 4)
          sampleWorld.fBubble_uniform sampleWorld.fBubble_interior :: post ∧
      (∀ op', Event.nc op' ∉ pre) ∧
      Event.nc (.NcFile "gllmeta.nc" .Replace) ∈ post) :=
  ⟨(no_partial_output unreadableWorld ["--mesh", "m.g"]).1
      (.exception ⟨"Unable to open \"%s\"", ["m.g"]⟩) rfl,
   (no_partial_output sampleWorld ["--mesh", "m.g"]).2 (.NcFile "gllmeta.nc" .Replace)
      (by simp [main, tryBlock, sampleWorld, CommandLineString, perform, writeCalls])⟩

/-- C4, as stated, fails: on a mesh of 2^31 faces, in a run that returns 0, the `nelem`
dimension is declared with size -2147483648, not with the number of faces. -/
theorem dataset_nelem_wraps :
    (main hugeWorld ["--mesh", "m.g"]).exit = 0 ∧
    hugeMesh.faces.length = 2147483648 ∧
    Event.nc (.add_dim "nelem" (-2147483648)) ∈ (main hugeWorld ["--mesh", "m.g"]).trace ∧
    Event.nc (.add_dim "nelem" 2147483648) ∉ (main hugeWorld ["--mesh", "m.g"]).trace := by
  have hlen : hugeMesh.faces.length = 2147483648 := List.length_replicate _ _
  have hcast : static_cast_int hugeMesh.faces.length = -2147483648 := by
    rw [hlen]; decide
  have hmain := main_of_all_ok hugeWorld ["--mesh", "m.g"]
    ⟨some "m.g", none, none⟩ hugeMesh 12.0 sampleMetaData
    rfl (by decide) rfl rfl rfl (fun _ => rfl)
  rw [hcast] at hmain
  rw [hmain]
  refine ⟨rfl, hlen, ?_, ?_⟩
  · simp [writeCalls]
  · simp [writeCalls, traceReport, traceGenerate, traceAreas, traceLoad]

/-- C4, amended.  A run that returns 0 makes exactly these NetCDF calls, in this order:
open the output file in replace mode; declare the dimension `nelem` with the face
count of the loaded mesh converted to `int`, and the dimension `np` with `nP`; declare
the integer variable `GLLnodes` and the real variable `J`, both over `(np, np, nelem)`;
write each from the tensor `GenerateMetaData` returned, with extents
`(nP, nP, nelem size)`.  The `nelem` size is the number of faces whenever that number
is below 2^31. -/
theorem dataset_shape (w : World) (argv : List String)
    (hexit : (main w argv).exit = 0) :
    ∃ g m md, w.ParseCommandLine argv = .ok g ∧
      w.loadMesh (CommandLineString g.mesh "") = .ok m ∧
      w.GenerateMetaData m (CommandLineInt g.np 4) w.fBubble_uniform
        w.fBubble_interior = .ok md ∧
      ncCalls (main w argv).trace =
        [ .NcFile (CommandLineString g.out "gllmeta.nc") .Replace,
          .add_dim "nelem" (static_cast_int m.faces.length),
          .add_dim "np" (CommandLineInt g.np 4),
          .add_var "GLLnodes" .ncInt ["np", "np", "nelem"],
          .add_var "J" .ncDouble ["np", "np", "nelem"],
          .put_int "GLLnodes" md.dataGLLnodes
            [CommandLineInt g.np 4, CommandLineInt g.np 4, static_cast_int m.faces.length],
          .put_double "J" md.dataGLLJacobian
            [CommandLineInt g.np 4, CommandLineInt g.np 4, static_cast_int m.faces.length] ] ∧
      (m.faces.length < 2 ^ 31 → static_cast_int m.faces.length = m.faces.length) := by
  obtain ⟨g, m, a, md, hparse, -, hload, -, hgen, htrace⟩ := main_exit_zero hexit
  refine ⟨g, m, md, hparse, hload, hgen, ?_, static_cast_int_of_lt⟩
  rw [htrace, ncCalls_append, ncCalls_append, ncCalls_traceReport, ncCalls_map_nc]
  rfl

theorem dataset_shape_witness :
    ∃ g m md, sampleWorld.ParseCommandLine ["--mesh", "m.g"] = .ok g ∧
      sampleWorld.loadMesh (CommandLineString g.mesh "") = .ok m ∧
      sampleWorld.GenerateMetaData m (CommandLineInt g.np 4) sampleWorld.fBubble_uniform
        sampleWorld.fBubble_interior = .ok md ∧
      ncCalls (main sampleWorld ["--mesh", "m.g"]).trace =
        [ .NcFile (CommandLineString g.out "gllmeta.nc") .Replace,
          .add_dim "nelem" (static_cast_int m.faces.length),
          .add_dim "np" (CommandLineInt g.np 4),
          .add_var "GLLnodes" .ncInt ["np", "np", "nelem"],
          .add_var "J" .ncDouble ["np", "np", "nelem"],
          .put_int "GLLnodes" md.dataGLLnodes
            [CommandLineInt g.np 4, CommandLineInt g.np 4, static_cast_int m.faces.length],
          .put_double "J" md.dataGLLJacobian
            [CommandLineInt g.np 4, CommandLineInt g.np 4, static_cast_int m.faces.length] ] ∧
      (m.faces.length < 2 ^ 31 → static_cast_int m.faces.length = m.faces.length) :=
  dataset_shape sampleWorld ["--mesh", "m.g"] rfl

/-- C5. With `--np` left out, every call of `GenerateMetaData` gets `nP = 4` and every
declaration of the `np` dimension gets size 4; with `--np v`, both get `v`.  With
`--out` left out, the file opened is `gllmeta.nc`; with `--out v`, it is `v`.  A run
that returns 0 does call the generator, open the file and declare `np`. -/
theorem command_line_defaults (w : World) (argv : List String) (g : GivenArgs)
    (hparse : w.ParseCommandLine argv = .ok g) :
    (g.np = none →
      (∀ m n u i, Event.GenerateMetaData m n u i ∈ (main w argv).trace → n = 4) ∧
      (∀ s, Event.nc (.add_dim "np" s) ∈ (main w argv).trace → s = 4)) ∧
    (∀ v, g.np = some v →
      (∀ m n u i, Event.GenerateMetaData m n u i ∈ (main w argv).trace → n = v) ∧
      (∀ s, Event.nc (.add_dim "np" s) ∈ (main w argv).trace → s = v)) ∧
    (g.out = none →
      ∀ p mode, Event.nc (.NcFile p mode) ∈ (main w argv).trace → p = "gllmeta.nc") ∧
    (∀ v, g.out = some v →
      ∀ p mode, Event.nc (.NcFile p mode) ∈ (main w argv).trace → p = v) ∧
    ((main w argv).exit = 0 →
      (∃ m n u i, Event.GenerateMetaData m n u i ∈ (main w argv).trace) ∧
      (∃ p, Event.nc (.NcFile p .Replace) ∈ (main w argv).trace) ∧
      (∃ s, Event.nc (.add_dim "np" s) ∈ (main w argv).trace)) := by
  obtain ⟨hgen, hnc⟩ := main_events hparse
  have hnp : ∀ s, Event.nc (.add_dim "np" s) ∈ (main w argv).trace →
      s = CommandLineInt g.np 4 := by
    intro s hs
    obtain ⟨m, md, hmem⟩ := hnc _ hs
    simpa [writeCalls] using hmem
  have hout : ∀ p mode, Event.nc (.NcFile p mode) ∈ (main w argv).trace →
      p = CommandLineString g.out "gllmeta.nc" := by
    intro p mode hp
    obtain ⟨m, md, hmem⟩ := hnc _ hp
    simp [writeCalls] at hmem
    exact hmem
  refine ⟨fun h => ⟨?_, ?_⟩, fun v h => ⟨?_, ?_⟩, fun h => ?_, fun v h => ?_, fun h => ?_⟩
  · intro m n u i hmem
    simpa [CommandLineInt, h] using (hgen m n u i hmem).1
  · intro s hs
    simpa [CommandLineInt, h] using hnp s hs
  · intro m n u i hmem
    simpa [CommandLineInt, h] using (hgen m n u i hmem).1
  · intro s hs
    simpa [CommandLineInt, h] using hnp s hs
  · intro p mode hp
    simpa [CommandLineString, h] using hout p mode hp
  · intro p mode hp
    simpa [CommandLineString, h] using hout p mode hp
  · obtain ⟨g', m, a, md, -, -, -, -, -, htrace⟩ := main_exit_zero h
    rw [htrace]
    refine ⟨⟨m, CommandLineInt g'.np 4, w.fBubble_uniform, w.fBubble_interior, ?_⟩,
      ⟨CommandLineString g'.out "gllmeta.nc", ?_⟩, ⟨CommandLineInt g'.np 4, ?_⟩⟩
    · simp [traceReport, traceGenerate]
    · simp [writeCalls]
    · simp [writeCalls]

theorem command_line_defaults_witness :
    ((∀ m n u i, Event.GenerateMetaData m n u i ∈
        (main sampleWorld ["--mesh", "m.g"]).trace → n = 4) ∧
      (∀ s, Event.nc (.add_dim "np" s) ∈ (main sampleWorld ["--mesh", "m.g"]).trace → s = 4)) ∧
    (∀ p mode, Event.nc (.NcFile p mode) ∈
        (main sampleWorld ["--mesh", "m.g"]).trace → p = "gllmeta.nc") ∧
    ((∃ m n u i, Event.GenerateMetaData m n u i ∈ (main sampleWorld ["--mesh", "m.g"]).trace) ∧
      (∃ p, Event.nc (.NcFile p .Replace) ∈ (main sampleWorld ["--mesh", "m.g"]).trace) ∧
      (∃ s, Event.nc (.add_dim "np" s) ∈ (main sampleWorld ["--mesh", "m.g"]).trace)) ∧
    ((∀ m n u i, Event.GenerateMetaData m n u i ∈
        (main explicitWorld ["--mesh", "m.g", "--np", "6", "--out", "o.nc"]).trace → n = 6) ∧
      (∀ s, Event.nc (.add_dim "np" s) ∈
        (main explicitWorld ["--mesh", "m.g", "--np", "6", "--out", "o.nc"]).trace → s = 6)) ∧
    (∀ p mode, Event.nc (.NcFile p mode) ∈
        (main explicitWorld ["--mesh", "m.g", "--np", "6", "--out", "o.nc"]).trace →
      p = "o.nc") :=
  ⟨(command_line_defaults sampleWorld ["--mesh", "m.g"] ⟨some "m.g", none, none⟩ rfl).1 rfl,
   (command_line_defaults sampleWorld ["--mesh", "m.g"] ⟨some "m.g", none, none⟩ rfl).2.2.1 rfl,
   (command_line_defaults sampleWorld ["--mesh", "m.g"] ⟨some "m.g", none, none⟩ rfl).2.2.2.2 rfl,
   (command_line_defaults explicitWorld ["--mesh", "m.g", "--np", "6", "--out", "o.nc"]
     ⟨some "m.g", some 6, some "o.nc"⟩ rfl).2.1 6 rfl,
   (command_line_defaults explicitWorld ["--mesh", "m.g", "--np", "6", "--out", "o.nc"]
     ⟨some "m.g", some 6, some "o.nc"⟩ rfl).2.2.2.1 "o.nc" rfl⟩

/-- C6. In every run in which `GenerateMetaData` returns, the message
`Accumulated J: .. (Error ..)` is announced once, with the total exactly as returned
and, as the error, that total minus `4.0 * M_PI` in double arithmetic.  The same holds
whatever area `CalculateFaceAreas` returns for the mesh. -/
theorem accumulated_report (w : World) (argv : List String) (g : GivenArgs) (m : Mesh)
    (a : Float) (md : MetaData)
    (hparse : w.ParseCommandLine argv = .ok g)
    (hmesh : CommandLineString g.mesh "" ≠ "")
    (hload : w.loadMesh (CommandLineString g.mesh "") = .ok m)
    (hareas : w.CalculateFaceAreas m = .ok a)
    (hgen : w.GenerateMetaData m (CommandLineInt g.np 4) w.fBubble_uniform
      w.fBubble_interior = .ok md) :
    Event.Announce "Accumulated J: %1.15e (Error %1.15e)\n"
      [md.dAccumulatedJacobian, md.dAccumulatedJacobian - 4.0 * M_PI] ∈ (main w argv).trace ∧
    (∀ args, Event.Announce "Accumulated J: %1.15e (Error %1.15e)\n" args ∈
      (main w argv).trace →
      args = [md.dAccumulatedJacobian, md.dAccumulatedJacobian - 4.0 * M_PI]) ∧
    (∀ (areas : Mesh → Except Thrown Float) (a' : Float), areas m = .ok a' →
      Event.Announce "Accumulated J: %1.15e (Error %1.15e)\n"
        [md.dAccumulatedJacobian, md.dAccumulatedJacobian - 4.0 * M_PI] ∈
        (main { w with CalculateFaceAreas := areas } argv).trace ∧
      (∀ args, Event.Announce "Accumulated J: %1.15e (Error %1.15e)\n" args ∈
        (main { w with CalculateFaceAreas := areas } argv).trace →
        args = [md.dAccumulatedJacobian, md.dAccumulatedJacobian - 4.0 * M_PI])) := by
  obtain ⟨h1, h2⟩ := report_of_generated hparse hmesh hload hareas hgen
  exact ⟨h1, h2, fun areas a' ha =>
    report_of_generated (w := { w with CalculateFaceAreas := areas }) hparse hmesh hload ha hgen⟩

theorem accumulated_report_witness :
    Event.Announce "Accumulated J: %1.15e (Error %1.15e)\n"
      [sampleMetaData.dAccumulatedJacobian,
        sampleMetaData.dAccumulatedJacobian - 4.0 * M_PI] ∈
      (main sampleWorld ["--mesh", "m.g"]).trace ∧
    Event.Announce "Accumulated J: %1.15e (Error %1.15e)\n"
      [sampleMetaData.dAccumulatedJacobian,
        sampleMetaData.dAccumulatedJacobian - 4.0 * M_PI] ∈
      (main { sampleWorld with CalculateFaceAreas := fun _ => .ok 3.0 }
        ["--mesh", "m.g"]).trace :=
  ⟨(accumulated_report sampleWorld ["--mesh", "m.g"] ⟨some "m.g", none, none⟩ sampleMesh
      12.0 sampleMetaData rfl (by decide) rfl rfl rfl).1,
   ((accumulated_report sampleWorld ["--mesh", "m.g"] ⟨some "m.g", none, none⟩ sampleMesh
      12.0 sampleMetaData rfl (by decide) rfl rfl rfl).2.2 (fun _ => .ok 3.0) 3.0 rfl).1⟩

/-- C7. With the generator of the spec, a run with a non-empty mesh path and an order
below 2 returns a nonzero code and makes no NetCDF call, whatever the mesh file holds;
when the mesh loads and its areas are computed, the code is -1 and the error announced
is `InvalidInput`, as the last event of the run. -/
theorem low_order_rejected (w : World) (argv : List String) (g : GivenArgs)
    (hparse : w.ParseCommandLine argv = .ok g)
    (hmesh : CommandLineString g.mesh "" ≠ "")
    (hnp : CommandLineInt g.np 4 < 2) :
    (main (withSpecGenerator w) argv).exit ≠ 0 ∧
    (∀ op, Event.nc op ∉ (main (withSpecGenerator w) argv).trace) ∧
    (∀ m a, w.loadMesh (CommandLineString g.mesh "") = .ok m →
      w.CalculateFaceAreas m = .ok a →
      (main (withSpecGenerator w) argv).exit = -1 ∧
      ∃ pre, (main (withSpecGenerator w) argv).trace =
        pre ++ [.AnnounceException InvalidInput]) := by
  have hparse' : (withSpecGenerator w).ParseCommandLine argv = .ok g := hparse
  cases hload : w.loadMesh (CommandLineString g.mesh "") with
  | error x =>
    have hload' : (withSpecGenerator w).loadMesh (CommandLineString g.mesh "") = .error x :=
      hload
    refine ⟨?_, ?_, fun m a hl => (by cases hl)⟩
    · cases x <;> simp [main, tryBlock, hparse', hmesh, hload']
    · cases x <;> simp [main, tryBlock, hparse', hmesh, hload']
  | ok m =>
    have hload' : (withSpecGenerator w).loadMesh (CommandLineString g.mesh "") = .ok m :=
      hload
    cases hareas : w.CalculateFaceAreas m with
    | error x =>
      have hareas' : (withSpecGenerator w).CalculateFaceAreas m = .error x := hareas
      refine ⟨?_, ?_, fun m' a hl ha => ?_⟩
      · cases x <;> simp [main, tryBlock, hparse', hmesh, hload', hareas']
      · cases x <;> simp [main, tryBlock, hparse', hmesh, hload', hareas']
      · cases hl
        rw [hareas] at ha
        cases ha
    | ok a =>
      have hareas' : (withSpecGenerator w).CalculateFaceAreas m = .ok a := hareas
      have hgen : (withSpecGenerator w).GenerateMetaData m (CommandLineInt g.np 4)
          (withSpecGenerator w).fBubble_uniform (withSpecGenerator w).fBubble_interior =
          .error (.exception InvalidInput) := by
        simp [withSpecGenerator, GenerateMetaData, hnp]
      have hmain : main (withSpecGenerator w) argv =
          ⟨traceGenerate (CommandLineString g.mesh "") m a (CommandLineInt g.np 4)
            w.fBubble_uniform w.fBubble_interior ++ [.AnnounceException InvalidInput], -1⟩ := by
        simp [main, tryBlock, hparse', hmesh, hload', hareas', hgen, traceGenerate,
          traceAreas, traceLoad]
        exact ⟨rfl, rfl⟩
      rw [hmain]
      refine ⟨by simp, ?_, fun m' a' _ _ => ⟨rfl, _, rfl⟩⟩
      intro op
      rw [mem_ncCalls, ncCalls_append, ncCalls_traceGenerate]
      simp [ncCalls]

theorem low_order_rejected_witness :
    (main (withSpecGenerator lowOrderWorld) ["--mesh", "m.g", "--np", "1"]).exit ≠ 0 ∧
    (∀ op, Event.nc op ∉
      (main (withSpecGenerator lowOrderWorld) ["--mesh", "m.g", "--np", "1"]).trace) ∧
    (main (withSpecGenerator lowOrderWorld) ["--mesh", "m.g", "--np", "1"]).exit = -1 ∧
    (∃ pre, (main (withSpecGenerator lowOrderWorld) ["--mesh", "m.g", "--np", "1"]).trace =
      pre ++ [.AnnounceException InvalidInput]) :=
  ⟨(low_order_rejected lowOrderWorld ["--mesh", "m.g", "--np", "1"]
      ⟨some "m.g", some 1, none⟩ rfl (by decide) (by decide)).1,
   (low_order_rejected lowOrderWorld ["--mesh", "m.g", "--np", "1"]
      ⟨some "m.g", some 1, none⟩ rfl (by decide) (by decide)).2.1,
   (low_order_rejected lowOrderWorld ["--mesh", "m.g", "--np", "1"]
      ⟨some "m.g", some 1, none⟩ rfl (by decide) (by decide)).2.2 sampleMesh 12.0 rfl rfl⟩

/-- C8, on the code.  Two runs on the same command line and the same collaborators, which
differ only in what the unassigned variable `fBubble_interior` holds: the generator is
called with different flags, one run returns 0 and writes both variables, the other
returns -1 and makes no NetCDF call. -/
theorem runs_differ_on_unassigned_flag :
    (orderTwoWorld false).ParseCommandLine ["--mesh", "m.g", "--np", "2"] =
      (orderTwoWorld true).ParseCommandLine ["--mesh", "m.g", "--np", "2"] ∧
    (orderTwoWorld false).loadMesh "m.g" = .ok sampleMesh ∧
    (orderTwoWorld true).loadMesh "m.g" = .ok sampleMesh ∧
    Event.GenerateMetaData sampleMesh 2 false false ∈
      (main (orderTwoWorld false) ["--mesh", "m.g", "--np", "2"]).trace ∧
    Event.GenerateMetaData sampleMesh 2 false true ∈
      (main (orderTwoWorld true) ["--mesh", "m.g", "--np", "2"]).trace ∧
    (main (orderTwoWorld false) ["--mesh", "m.g", "--np", "2"]).exit = 0 ∧
    (main (orderTwoWorld true) ["--mesh", "m.g", "--np", "2"]).exit = -1 ∧
    ncCalls (main (orderTwoWorld false) ["--mesh", "m.g", "--np", "2"]).trace =
      writeCalls "gllmeta.nc" 2 2 sampleMetaData ∧
    ncCalls (main (orderTwoWorld true) ["--mesh", "m.g", "--np", "2"]).trace = [] := by
  have h0 : main (orderTwoWorld false) ["--mesh", "m.g", "--np", "2"] = _ :=
    main_of_all_ok (orderTwoWorld false) ["--mesh", "m.g", "--np", "2"]
      ⟨some "m.g", some 2, none⟩ sampleMesh 12.0 sampleMetaData
      rfl (by decide) rfl rfl rfl (fun _ => rfl)
  have h1 : main (orderTwoWorld true) ["--mesh", "m.g", "--np", "2"] =
      ⟨traceGenerate "m.g" sampleMesh 12.0 2 false true ++
        [.AnnounceException ConfigurationError], -1⟩ := rfl
  rw [h0, h1]
  refine ⟨rfl, rfl, rfl, ?_, ?_, rfl, rfl, ?_, rfl⟩
  · simp [traceReport, traceGenerate, CommandLineInt, orderTwoWorld, sampleWorld]
  · simp [traceGenerate]
  · rw [ncCalls_append, ncCalls_append, ncCalls_traceReport, ncCalls_map_nc]
    rfl

/-- C9, as stated, fails: when the mesh constructor throws a value that is not an
`Exception`, `main` returns -2 and the run consists of the banner, the heading of the
loading block and the constructor call: no message about the error is announced. -/
theorem silent_catch_all :
    (main silentWorld ["--mesh", "m.g"]).exit = -2 ∧
    (main silentWorld ["--mesh", "m.g"]).trace =
      [.AnnounceBanner, .AnnounceStartBlock "Loading Mesh", .LoadMesh "m.g"] ∧
    (∀ e, Event.AnnounceException e ∉ (main silentWorld ["--mesh", "m.g"]).trace) ∧
    (∀ fmt args, Event.Announce fmt args ∉ (main silentWorld ["--mesh", "m.g"]).trace) := by
  have h : main silentWorld ["--mesh", "m.g"] =
      ⟨[.AnnounceBanner, .AnnounceStartBlock "Loading Mesh", .LoadMesh "m.g"], -2⟩ := rfl
  rw [h]
  simp

/-- C9, amended.  A run that returns a nonzero code returns -1 or -2.  When it returns
-1, the first throw was an `Exception`, and the announcement of that exception is the
last event of the run and the only such announcement.  When it returns -2, the first
throw was not an `Exception` and the run announces no exception. -/
theorem error_report (w : World) (argv : List String)
    (hexit : (main w argv).exit ≠ 0) :
    ((main w argv).exit = -1 ∧
      ∃ e pre, steps w argv = .error (.exception e) ∧
        (main w argv).trace = pre ++ [.AnnounceException e] ∧
        ∀ e', Event.AnnounceException e' ∉ pre) ∨
    ((main w argv).exit = -2 ∧ steps w argv = .error .other ∧
      ∀ e, Event.AnnounceException e ∉ (main w argv).trace) := by
  obtain ⟨t, r, hp, hm⟩ := main_path w argv
  have hs := steps_of_path hp
  have hclean : ∀ e, Event.AnnounceException e ∉ t := by
    intro e
    cases hp <;>
      simp [traceReport, traceGenerate, traceAreas, traceLoad]
  rw [hm] at hexit ⊢
  rcases r with (e | _) | c
  · exact Or.inl ⟨rfl, e, t, hs, rfl, hclean⟩
  · exact Or.inr ⟨rfl, hs, hclean⟩
  · rw [path_ok_zero hp] at hexit
    exact absurd rfl hexit

theorem error_report_witness :
    ((main unreadableWorld ["--mesh", "m.g"]).exit = -1 ∧
      ∃ e pre, steps unreadableWorld ["--mesh", "m.g"] = .error (.exception e) ∧
        (main unreadableWorld ["--mesh", "m.g"]).trace = pre ++ [.AnnounceException e] ∧
        ∀ e', Event.AnnounceException e' ∉ pre) ∨
    ((main unreadableWorld ["--mesh", "m.g"]).exit = -2 ∧
      steps unreadableWorld ["--mesh", "m.g"] = .error .other ∧
      ∀ e, Event.AnnounceException e ∉ (main unreadableWorld ["--mesh", "m.g"]).trace) :=
  error_report unreadableWorld ["--mesh", "m.g"] (by decide)

/-- C10, on the code.  The flags passed to `GenerateMetaData` are whatever the two
unassigned variables hold: in a run in which both hold `true`, the generator is called
with both flags `true`, and no call with both flags `false` is made. -/
theorem generator_called_with_unassigned_flags :
    Event.GenerateMetaData sampleMesh 4 true true ∈
      (main bubbleWorld ["--mesh", "m.g"]).trace ∧
    (∀ m n, Event.GenerateMetaData m n false false ∉
      (main bubbleWorld ["--mesh", "m.g"]).trace) ∧
    (main bubbleWorld ["--mesh", "m.g"]).exit = 0 := by
  have h0 : main bubbleWorld ["--mesh", "m.g"] = _ :=
    main_of_all_ok bubbleWorld ["--mesh", "m.g"]
      ⟨some "m.g", none, none⟩ sampleMesh 12.0 sampleMetaData
      rfl (by decide) rfl rfl rfl (fun _ => rfl)
  rw [h0]
  refine ⟨?_, ?_, rfl⟩
  · simp [traceReport, traceGenerate, CommandLineInt, bubbleWorld]
  · intro m n
    simp [traceReport, traceGenerate, traceAreas, traceLoad, bubbleWorld, writeCalls]

end GenerateGLLMetaData
